import Mathlib

/-!
Verification development for the MATE invest applet's market-data
acquisition and chart-rendering engine.

The C sources embedded here are `invest-applet-chart.c` (chart fetch,
JSON extraction of per-symbol time series, and the cairo draw callback)
and `invest-applet.c` (the panel ticker: per-symbol summary fetch and
percent-change computation).

Machine doubles (`gdouble`) are modelled as rationals `ℚ`: every claim
below concerns which formula is applied and which guard is taken, never
floating-point rounding.  `gint`/`guint` counts are modelled as `Nat`
(they hold JSON array lengths).  Fallible JSON navigation is modelled
with `Option`.
-/

namespace MateInvest

/-- JSON values as parsed by json-glib.  Integer-valued and
floating-point-valued number nodes are distinct, mirroring
`G_TYPE_INT64` vs `G_TYPE_DOUBLE` value nodes, because the C code
dispatches on `json_node_get_value_type`. -/
inductive JValue where
  | jnull
  | jbool (b : Bool)
  | jint (n : Int)
  | jfloat (q : ℚ)
  | jstring (s : String)
  | jarray (elems : List JValue)
  | jobject (members : List (String × JValue))

/-- Member lookup in a JSON object (`json_object_has_member` +
`json_object_get_member`). -/
def getMember (members : List (String × JValue)) (key : String) : Option JValue :=
  match members with
  | [] => none
  | (k, v) :: rest => if k = key then some v else getMember rest key

/-- `json_node_get_object`: the node must hold an object, else NULL. -/
def asObject : JValue → Option (List (String × JValue))
  | .jobject ms => some ms
  | _ => none

/-- `json_array_get_array` style view: the node must hold an array, else NULL.
A `null` member yields `none`, mirroring the `!json_object_get_null_member`
guard and json-glib returning NULL for non-array members. -/
def asArray : JValue → Option (List JValue)
  | .jarray es => some es
  | _ => none

/-- `json_object_get_object_member`: present and holding an object. -/
def getObjectMember (ms : List (String × JValue)) (k : String) :
    Option (List (String × JValue)) :=
  (getMember ms k).bind asObject

/-- `json_object_get_array_member`: present and holding an array. -/
def getArrayMember (ms : List (String × JValue)) (k : String) :
    Option (List JValue) :=
  (getMember ms k).bind asArray

/-- Navigation to `root.chart.result[0]`, shared by both response handlers:
the root node must be an object, `chart` an object member, `result` a
non-null array member with positive length, and element 0 an object
(`json_array_get_object_element`). -/
def result0 (root : JValue) : Option (List (String × JValue)) := do
  let robj ← asObject root
  let chart ← getObjectMember robj "chart"
  let results ← getArrayMember chart "result"
  if results.length > 0 then
    asObject (results.getD 0 .jnull)
  else none

/-- `result[0].timestamp` as an array, when present
(`json_object_has_member (result, "timestamp")` then
`json_object_get_array_member`, then the `if (timestamps)` NULL check). -/
def timestampArray (root : JValue) : Option (List JValue) := do
  let r0 ← result0 root
  getArrayMember r0 "timestamp"

/-- `result[0].indicators.quote[0].close` as an array, when the whole
path is present: `indicators` an object, `quote` a non-null array of
positive length, `quote[0]` an object, `close` a member holding an
array (the `if (close_prices)` NULL check). -/
def closeArray (root : JValue) : Option (List JValue) := do
  let r0 ← result0 root
  let indicators ← getObjectMember r0 "indicators"
  let quotes ← getArrayMember indicators "quote"
  if quotes.length > 0 then
    let quote ← asObject (quotes.getD 0 .jnull)
    getArrayMember quote "close"
  else none

/-- One timestamp slot: copied when the element node holds an int64
(`json_node_get_value_type (timestamp_node) == G_TYPE_INT64`), otherwise
the slot keeps the `g_malloc0` zero sentinel. -/
def tsElem : JValue → Int
  | .jint n => n
  | _ => 0

/-- One closing-price slot: copied when the element node holds a double
(`json_node_get_value_type (price_node) == G_TYPE_DOUBLE`), otherwise the
slot keeps the `g_malloc0` zero sentinel. -/
def priceElem : JValue → ℚ
  | .jfloat q => q
  | _ => 0

/-- `StockChartData` from invest-applet-chart.c: one symbol's parsed
series. -/
structure StockChartData where
  symbol : String
  prices : List ℚ
  timestamps : List Int
  data_count : Nat
  valid : Bool
deriving DecidableEq, Repr

/-- Slot state produced for symbol `sym` by `fetch_chart_data`'s
initialization loop: `valid = FALSE`, NULL arrays, `data_count = 0`. -/
def freshSlot (sym : String) : StockChartData :=
  { symbol := sym, prices := [], timestamps := [], data_count := 0, valid := false }

/-- The slot update performed by `on_chart_data_received` for one
completion: on non-OK status (`SOUP_STATUS_OK` = 200) or a JSON parse
failure (`body = none`) the handler jumps to `cleanup` and the slot is
left untouched; otherwise the timestamp branch (when present) writes
`timestamps` and `data_count`, and the close branch (when present)
writes `prices` and sets `valid = TRUE`.  The function is total: no
input aborts. -/
def applyChartResponse (slot : StockChartData) (status : Nat)
    (body : Option JValue) : StockChartData :=
  if status ≠ 200 then slot
  else match body with
  | none => slot
  | some root =>
    let slot1 :=
      match timestampArray root with
      | some ts => { slot with timestamps := ts.map tsElem, data_count := ts.length }
      | none => slot
    match closeArray root with
    | some cs => { slot1 with prices := cs.map priceElem, valid := true }
    | none => slot1

/-- The extractor contract of §4.1: run one completion against the fresh
slot a new fetch generation allocates for the symbol. -/
def extractChart (status : Nat) (body : Option JValue) (sym : String) :
    StockChartData :=
  applyChartResponse (freshSlot sym) status body

/-- `fetch_chart_data`: the previous collection is freed and a fresh
zero-initialized collection, one slot per configured symbol, replaces
it. -/
def freshChartData (symbols : List String) : List StockChartData :=
  symbols.map freshSlot

/-- Delivery of one completion carrying slot index `i` into whatever
collection is current at arrival time: `on_chart_data_received` receives
only `(chart, i)` as completion context — no generation id — and writes
through `chart->chart_data[i]`. -/
def deliverChartResponse (data : List StockChartData) (i : Nat)
    (status : Nat) (body : Option JValue) : List StockChartData :=
  data.set i (applyChartResponse (data.getD i (freshSlot "")) status body)

/-- Whether a slot participates in rendering: the `chart_draw_cb` filter
`chart_data[i].valid && chart_data[i].data_count > 0`. -/
def qualifies (d : StockChartData) : Bool :=
  d.valid && decide (d.data_count > 0)

/-- Whether a qualifying slot contributes to the min/max price range:
the inner loop `for j < data_count: if (prices[j] > 0)` updates
`min_price`/`max_price`, so the range stays at its sentinels iff no
strictly positive price occurs among the first `data_count` reads. -/
def contributesPrice (d : StockChartData) : Bool :=
  (List.range d.data_count).any fun j => decide (d.prices.getD j 0 > 0)

/-- Whether a qualifying slot contributes to the min/max time range:
`timestamps[0] > 0 && timestamps[data_count - 1] > 0 &&
timestamps[0] < 9999999999`. -/
def contributesTime (d : StockChartData) : Bool :=
  decide (d.timestamps.getD 0 0 > 0) &&
  decide (d.timestamps.getD (d.data_count - 1) 0 > 0) &&
  decide (d.timestamps.getD 0 0 < 9999999999)

/-- The three outcomes of `chart_draw_cb` before any series is drawn. -/
inductive ChartMessage where
  /-- the centered placeholder text `"Loading chart data..."` -/
  | loadingChartData
  /-- the centered placeholder text `"No chart data available"` -/
  | noChartDataAvailable
  /-- the draw pass proceeds to grid, labels, lines and legend -/
  | chartDrawn
deriving DecidableEq, Repr

/-- Placeholder-message selection in `chart_draw_cb`: if no slot
qualifies, draw `"Loading chart data..."` and return; else if the
price range or the time range kept its sentinel values
(`min_price == G_MAXDOUBLE || max_price == G_MINDOUBLE ||
min_time == G_MAXINT64 || max_time == G_MININT64`), draw
`"No chart data available"` and return; else draw the chart. -/
def chartMessage (data : List StockChartData) : ChartMessage :=
  if !(data.any qualifies) then .loadingChartData
  else if !(data.any fun d => qualifies d && contributesPrice d) ||
          !(data.any fun d => qualifies d && contributesTime d) then
    .noChartDataAvailable
  else .chartDrawn

/-- Horizontal gridline y positions: `for (i = 0; i <= 10; i++)`
draws a line at `y = 50 + i * (height - 100) / 10`. -/
def hGridYs (height : ℚ) : List ℚ :=
  (List.range 11).map fun (i : Nat) => 50 + (i : ℚ) * (height - 100) / 10

/-- Vertical gridline x positions: `for (i = 0; i <= 10; i++)`
draws a line at `x = 50 + i * (width - 100) / 10`. -/
def vGridXs (width : ℚ) : List ℚ :=
  (List.range 11).map fun (i : Nat) => 50 + (i : ℚ) * (width - 100) / 10

/-- `StockSortInfo` from `chart_draw_cb`: slot index paired with the
series' last price `prices[data_count - 1]`, the sort key. -/
structure StockSortInfo where
  index : Nat
  current_price : ℚ
deriving DecidableEq, Repr

/-- Collection pass of `chart_draw_cb`: walk the slots in order and keep,
for each qualifying one, its index and its last price
`prices[data_count - 1]`. -/
def collectSortInfo (data : List StockChartData) : List StockSortInfo :=
  data.enum.filterMap fun p =>
    if qualifies p.2 then
      some { index := p.1, current_price := p.2.prices.getD (p.2.data_count - 1) 0 }
    else none

/-- The `g_malloc0` zero value of a `StockSortInfo` slot, used as the
out-of-bounds fallback of the list reads below (the C loops only ever
read in bounds). -/
def noInfo : StockSortInfo :=
  { index := 0, current_price := 0 }

/-- The in-place exchange `temp = a[i]; a[i] = a[j]; a[j] = temp`,
modelled on lists: both reads happen before either write. -/
def swapL (l : List StockSortInfo) (i j : Nat) : List StockSortInfo :=
  (l.set i (l.getD j noInfo)).set j (l.getD i noInfo)

/-- Sort-key read `a[k].current_price`. -/
def pval (l : List StockSortInfo) (k : Nat) : ℚ :=
  (l.getD k noInfo).current_price

/-- Inner sorting loop of `chart_draw_cb`:
`for (j = i + 1; j < valid_count; j++) if (a[i].cp < a[j].cp) swap`.
The loop is driven by a fuel argument so the definition is structural;
callers pass fuel `≥ l.length - j`, which never truncates the loop. -/
def innerLoop (fuel : Nat) (l : List StockSortInfo) (i j : Nat) :
    List StockSortInfo :=
  match fuel with
  | 0 => l
  | fuel + 1 =>
    if j < l.length then
      if pval l i < pval l j then
        innerLoop fuel (swapL l i j) i (j + 1)
      else
        innerLoop fuel l i (j + 1)
    else l

/-- Outer sorting loop of `chart_draw_cb`:
`for (i = 0; i < valid_count - 1; i++)` with the inner loop above.
With `gint` arithmetic `i < valid_count - 1` is `i + 1 < valid_count`
(and false for `valid_count = 0`). -/
def outerLoop : Nat → List StockSortInfo → Nat → List StockSortInfo
  | 0, l, _ => l
  | fuel + 1, l, i =>
    if i + 1 < l.length then
      outerLoop fuel (innerLoop l.length l i (i + 1)) (i + 1)
    else l

/-- The full selection-style sort of `chart_draw_cb`: highest last price
first. -/
def sortStocks (l : List StockSortInfo) : List StockSortInfo :=
  outerLoop l.length l 0

/-- The fixed stroke palette of `chart_draw_cb`. -/
def colors : List String :=
  ["#CC0000", "#3465A4", "#73D216", "#FCE94F",
   "#AD7FA8", "#F57900", "#C17D11", "#555753"]

/-- Stroke-color choice for the series at sorted position `i`:
`color_idx = i % G_N_ELEMENTS (colors)`. -/
def colorIdx (i : Nat) : Nat :=
  i % colors.length

/-- Per-symbol ticker slot of invest-applet.c, kept in the parallel
arrays `stock_prices` / `stock_changes` / `stock_valid`. -/
structure StockSlot where
  price : ℚ
  change : ℚ
  valid : Bool
deriving DecidableEq, Repr

/-- Slot state after `invest_applet_update_stocks`' `g_malloc0`
allocation: price 0, change 0, `valid = FALSE`. -/
def freshStockSlot : StockSlot :=
  { price := 0, change := 0, valid := false }

/-- `json_object_get_double_member`: a double node yields its value, an
int64 node is coerced, anything else (including a missing member)
yields 0 with a warning. -/
def getDoubleMember (ms : List (String × JValue)) (k : String) : ℚ :=
  match getMember ms k with
  | some (.jfloat q) => q
  | some (.jint n) => (n : ℚ)
  | _ => 0

/-- Navigation to `root.chart.result[0].meta` in `on_stock_data_received`
(`json_object_get_object_member (result, "meta")`, NULL-checked). -/
def metaObject (root : JValue) : Option (List (String × JValue)) := do
  let r0 ← result0 root
  getObjectMember r0 "meta"

/-- The slot update performed by `on_stock_data_received` for one summary
completion: on non-OK status or parse failure the slot is untouched;
otherwise, when `meta` is reachable and both `regularMarketPrice` and
`previousClose` are strictly positive, the handler stores the price, the
percent change `(current - previousClose) / previousClose * 100`, and
`valid = TRUE`; in every other case nothing is stored. -/
def applyStockResponse (slot : StockSlot) (status : Nat)
    (body : Option JValue) : StockSlot :=
  if status ≠ 200 then slot
  else match body with
  | none => slot
  | some root =>
    match metaObject root with
    | none => slot
    | some meta =>
      let current_price := getDoubleMember meta "regularMarketPrice"
      let prev_close := getDoubleMember meta "previousClose"
      if current_price > 0 ∧ prev_close > 0 then
        { price := current_price
          change := (current_price - prev_close) / prev_close * 100
          valid := true }
      else slot

/-- `data_count` as the timestamp pass leaves it: the length of the
`timestamp` array when present, else the initial 0. -/
def tsCount (root : JValue) : Nat :=
  match timestampArray root with
  | some ts => ts.length
  | none => 0

/-- Modelled from the spec: a "well-formed response" in the sense of the
upstream API contract assumed by §8 — when the `close` array is present
it is index-aligned with the `timestamp` array, i.e. has length equal to
the timestamp-derived `data_count` (the source comment: "The closing
prices for each stock map to the same index of the corresponding
timestamps"). -/
def wellFormedB (root : JValue) : Bool :=
  match closeArray root with
  | some cs => cs.length == tsCount root
  | none => true

/-- Concrete response body: one timestamp and one closing price, the
shape a successful fetch issued under a superseded generation would
still deliver. -/
def staleBody : JValue :=
  .jobject [("chart", .jobject [("result", .jarray [.jobject [
    ("timestamp", .jarray [.jint 1000]),
    ("indicators", .jobject [("quote", .jarray [.jobject [
      ("close", .jarray [.jfloat 101])]])])]])])]

/-- Concrete response body: one timestamp but an empty (yet present)
`close` array. -/
def emptyCloseBody : JValue :=
  .jobject [("chart", .jobject [("result", .jarray [.jobject [
    ("timestamp", .jarray [.jint 1000]),
    ("indicators", .jobject [("quote", .jarray [.jobject [
      ("close", .jarray [])]])])]])])]

/-- Concrete well-formed response body: `timestamp = [1000, 1010, 1020]`
aligned with `close = [10.0, 11.0, 12.0]`. -/
def wfBody : JValue :=
  .jobject [("chart", .jobject [("result", .jarray [.jobject [
    ("timestamp", .jarray [.jint 1000, .jint 1010, .jint 1020]),
    ("indicators", .jobject [("quote", .jarray [.jobject [
      ("close", .jarray [.jfloat 10, .jfloat 11, .jfloat 12])]])])]])])]

/-- Concrete response body whose timestamp array mixes an int64 element,
a non-integer element and another int64 element. -/
def mixedTsBody : JValue :=
  .jobject [("chart", .jobject [("result", .jarray [.jobject [
    ("timestamp", .jarray [.jint 1000, .jstring "x", .jint 1020])]])])]

/-- Concrete summary response body with
`meta.regularMarketPrice = 110` and `meta.previousClose = 100`. -/
def summaryBody : JValue :=
  .jobject [("chart", .jobject [("result", .jarray [.jobject [
    ("meta", .jobject [("regularMarketPrice", .jfloat 110),
                       ("previousClose", .jfloat 100)])]])])]

/-- Three qualifying series whose last prices are 50, 200 and 10. -/
def threeSeries : List StockChartData :=
  [ { symbol := "AAA", prices := [50], timestamps := [1000],
      data_count := 1, valid := true },
    { symbol := "BBB", prices := [200], timestamps := [1000],
      data_count := 1, valid := true },
    { symbol := "CCC", prices := [10], timestamps := [1000],
      data_count := 1, valid := true } ]

/-- One series whose only price is non-positive: it qualifies for
rendering but contributes nothing to the price range. -/
def zeroPriceSeries : List StockChartData :=
  [ { symbol := "ZRO", prices := [0], timestamps := [1000],
      data_count := 1, valid := true } ]

/-! Helper lemmas about the selection-style sort of `chart_draw_cb`. -/

theorem length_swapL (l : List StockSortInfo) (i j : Nat) :
    (swapL l i j).length = l.length := by
  simp [swapL]

theorem length_innerLoop (fuel : Nat) (l : List StockSortInfo) (i j : Nat) :
    (innerLoop fuel l i j).length = l.length := by
  induction fuel generalizing l j with
  | zero => rfl
  | succ f ih =>
    rw [innerLoop]
    split
    · split
      · rw [ih, length_swapL]
      · exact ih l (j + 1)
    · rfl

theorem pval_swapL_ne (l : List StockSortInfo) (i j k : Nat)
    (hki : k ≠ i) (hkj : k ≠ j) : pval (swapL l i j) k = pval l k := by
  simp [pval, swapL, List.getD_eq_getElem?_getD,
    List.getElem?_set_ne (Ne.symm hkj), List.getElem?_set_ne (Ne.symm hki)]

theorem pval_swapL_j (l : List StockSortInfo) (i j : Nat)
    (hj : j < l.length) : pval (swapL l i j) j = pval l i := by
  have h1 : ((l.set i (l.getD j noInfo)).set j (l.getD i noInfo))[j]?
      = some (l.getD i noInfo) :=
    List.getElem?_set_self (by simpa using hj)
  simp [pval, swapL, noInfo, List.getD_eq_getElem?_getD] at h1 ⊢
  rw [h1, Option.getD_some]

theorem pval_swapL_i (l : List StockSortInfo) (i j : Nat)
    (hi : i < l.length) : pval (swapL l i j) i = pval l j := by
  by_cases hij : i = j
  · subst hij
    exact pval_swapL_j l i i hi
  · have h2 : ((l.set i (l.getD j noInfo)).set j (l.getD i noInfo))[i]?
        = (l.set i (l.getD j noInfo))[i]? :=
      List.getElem?_set_ne (fun h => hij h.symm)
    have h3 : (l.set i (l.getD j noInfo))[i]? = some (l.getD j noInfo) :=
      List.getElem?_set_self hi
    simp [pval, swapL, noInfo, List.getD_eq_getElem?_getD] at h2 h3 ⊢
    rw [h2, h3, Option.getD_some]

theorem pval_innerLoop_low (fuel : Nat) (l : List StockSortInfo) (i j k : Nat)
    (hk : k < j) (hki : k ≠ i) :
    pval (innerLoop fuel l i j) k = pval l k := by
  induction fuel generalizing l j with
  | zero => rfl
  | succ f ih =>
    rw [innerLoop]
    split
    · split
      · rw [ih (swapL l i j) (j + 1) (Nat.lt_succ_of_lt hk),
          pval_swapL_ne l i j k hki (Nat.ne_of_lt hk)]
      · exact ih l (j + 1) (Nat.lt_succ_of_lt hk)
    · rfl

theorem pval_innerLoop_i_ge (fuel : Nat) (l : List StockSortInfo) (i j : Nat)
    (hij : i < j) : pval l i ≤ pval (innerLoop fuel l i j) i := by
  induction fuel generalizing l j with
  | zero => exact le_refl _
  | succ f ih =>
    rw [innerLoop]
    split
    · rename_i hjl
      split
      · rename_i hc
        calc pval l i ≤ pval l j := le_of_lt hc
          _ = pval (swapL l i j) i := (pval_swapL_i l i j (Nat.lt_trans hij hjl)).symm
          _ ≤ _ := ih (swapL l i j) (j + 1) (Nat.lt_succ_of_lt hij)
      · exact ih l (j + 1) (Nat.lt_succ_of_lt hij)
    · exact le_refl _

theorem pval_innerLoop_max (fuel : Nat) (l : List StockSortInfo) (i j : Nat)
    (hfuel : l.length - j ≤ fuel) (hij : i < j) :
    ∀ k, j ≤ k → k < l.length →
      pval (innerLoop fuel l i j) k ≤ pval (innerLoop fuel l i j) i := by
  induction fuel generalizing l j with
  | zero => intro k hjk hk; omega
  | succ f ih =>
    intro k hjk hk
    rw [innerLoop]
    have hjl : j < l.length := Nat.lt_of_le_of_lt hjk hk
    rw [if_pos hjl]
    by_cases hc : pval l i < pval l j
    · rw [if_pos hc]
      have hlen : (swapL l i j).length = l.length := length_swapL l i j
      rcases Nat.eq_or_lt_of_le hjk with heq | hlt
      · subst heq
        have h1 : pval (innerLoop f (swapL l i j) i (j + 1)) j
            = pval (swapL l i j) j :=
          pval_innerLoop_low f (swapL l i j) i (j + 1) j (Nat.lt_succ_self j)
            (Ne.symm (Nat.ne_of_lt hij))
        have h2 : pval (swapL l i j) i
            ≤ pval (innerLoop f (swapL l i j) i (j + 1)) i :=
          pval_innerLoop_i_ge f (swapL l i j) i (j + 1) (Nat.lt_succ_of_lt hij)
        rw [h1, pval_swapL_j l i j hjl]
        refine le_trans (le_of_lt hc) ?_
        rw [← pval_swapL_i l i j (Nat.lt_trans hij hjl)]
        exact h2
      · exact ih (swapL l i j) (j + 1) (by omega) (Nat.lt_succ_of_lt hij) k hlt
          (by omega)
    · rw [if_neg hc]
      rcases Nat.eq_or_lt_of_le hjk with heq | hlt
      · subst heq
        have h1 : pval (innerLoop f l i (j + 1)) j = pval l j :=
          pval_innerLoop_low f l i (j + 1) j (Nat.lt_succ_self j)
            (Ne.symm (Nat.ne_of_lt hij))
        rw [h1]
        exact le_trans (le_of_not_lt hc)
          (pval_innerLoop_i_ge f l i (j + 1) (Nat.lt_succ_of_lt hij))
      · exact ih l (j + 1) (by omega) (Nat.lt_succ_of_lt hij) k hlt hk

theorem pval_innerLoop_mem (fuel : Nat) (l : List StockSortInfo) (i j k : Nat)
    (hij : i ≤ j) (hi : i < l.length) (hk1 : i ≤ k) (hk2 : k < l.length) :
    ∃ m, i ≤ m ∧ m < l.length ∧ pval (innerLoop fuel l i j) k = pval l m := by
  induction fuel generalizing l j with
  | zero => exact ⟨k, hk1, hk2, rfl⟩
  | succ f ih =>
    rw [innerLoop]
    by_cases hjl : j < l.length
    · rw [if_pos hjl]
      by_cases hc : pval l i < pval l j
      · rw [if_pos hc]
        obtain ⟨m, him, hm, heq⟩ :=
          ih (swapL l i j) (j + 1) (by omega)
            (by rw [length_swapL]; exact hi) (by rw [length_swapL]; exact hk2)
        rw [length_swapL] at hm
        by_cases hmi : m = i
        · rw [hmi] at heq
          exact ⟨j, by omega, hjl, heq.trans (pval_swapL_i l i j hi)⟩
        · by_cases hmj : m = j
          · rw [hmj] at heq
            exact ⟨i, le_refl i, hi, heq.trans (pval_swapL_j l i j hjl)⟩
          · exact ⟨m, him, hm, heq.trans (pval_swapL_ne l i j m hmi hmj)⟩
      · rw [if_neg hc]
        exact ih l (j + 1) (by omega) hi hk2
    · rw [if_neg hjl]
      exact ⟨k, hk1, hk2, rfl⟩

/-- The invariant carried by the outer loop: positions below `i` are
already in final position, each dominating everything to its right. -/
def DescUpTo (l : List StockSortInfo) (i : Nat) : Prop :=
  ∀ p q, p < i → p < q → q < l.length → pval l q ≤ pval l p

theorem length_outerLoop (fuel : Nat) (l : List StockSortInfo) (i : Nat) :
    (outerLoop fuel l i).length = l.length := by
  induction fuel generalizing l i with
  | zero => rfl
  | succ f ih =>
    rw [outerLoop]
    split
    · rw [ih, length_innerLoop]
    · rfl

theorem outerLoop_sorted (fuel : Nat) (l : List StockSortInfo) (i : Nat)
    (hfuel : l.length - (i + 1) ≤ fuel) (hinv : DescUpTo l i) :
    ∀ p q, p < q → q < (outerLoop fuel l i).length →
      pval (outerLoop fuel l i) q ≤ pval (outerLoop fuel l i) p := by
  induction fuel generalizing l i with
  | zero =>
    intro p q hpq hq
    simp only [outerLoop] at hq ⊢
    exact hinv p q (by omega) hpq hq
  | succ f ih =>
    rw [outerLoop]
    by_cases h : i + 1 < l.length
    · rw [if_pos h]
      have hlen : (innerLoop l.length l i (i + 1)).length = l.length :=
        length_innerLoop l.length l i (i + 1)
      refine ih (innerLoop l.length l i (i + 1)) (i + 1) (by omega) ?_
      intro p q hp hpq hq
      have hq' : q < l.length := by omega
      by_cases hpi : p = i
      · rw [hpi]
        rw [hpi] at hpq
        exact pval_innerLoop_max l.length l i (i + 1) (by omega)
          (Nat.lt_succ_self i) q (by omega) hq'
      · have hpi' : p < i := by omega
        have hp_eq : pval (innerLoop l.length l i (i + 1)) p = pval l p :=
          pval_innerLoop_low l.length l i (i + 1) p (by omega) hpi
        rw [hp_eq]
        rcases Nat.lt_or_ge q i with hqi | hqi
        · have hq_eq : pval (innerLoop l.length l i (i + 1)) q = pval l q :=
            pval_innerLoop_low l.length l i (i + 1) q (by omega) (by omega)
          rw [hq_eq]
          exact hinv p q hpi' hpq hq'
        · obtain ⟨m, him, hm, heq⟩ :=
            pval_innerLoop_mem l.length l i (i + 1) q (by omega) (by omega) hqi hq'
          rw [heq]
          exact hinv p m hpi' (by omega) hm
    · rw [if_neg h]
      intro p q hpq hq
      exact hinv p q (by omega) hpq hq

/-- The sorted output of `chart_draw_cb`'s nested loops is descending in
`current_price`. -/
theorem sortStocks_sorted (l : List StockSortInfo) :
    ∀ p q, p < q → q < (sortStocks l).length →
      pval (sortStocks l) q ≤ pval (sortStocks l) p := by
  intro p q hpq hq
  exact outerLoop_sorted l.length l 0 (by omega)
    (fun p _ hp _ _ => absurd hp (Nat.not_lt_zero p)) p q hpq hq

theorem hGridYs_getD (h : ℚ) (i : Nat) (hi : i < 11) :
    (hGridYs h).getD i 0 = 50 + (i : ℚ) * (h - 100) / 10 := by
  rw [hGridYs, List.getD_eq_getElem?_getD, List.getElem?_map, List.getElem?_range hi]
  rfl

theorem vGridXs_getD (w : ℚ) (i : Nat) (hi : i < 11) :
    (vGridXs w).getD i 0 = 50 + (i : ℚ) * (w - 100) / 10 := by
  rw [vGridXs, List.getD_eq_getElem?_getD, List.getElem?_map, List.getElem?_range hi]
  rfl

/-! Claim theorems. -/

/-- C1: the claim says a completion belonging to a superseded generation
must leave the current generation's collection unchanged.  The code
carries no generation id in the completion context: after G2's fresh
collection for `["AAA", "BBB", "CCC"]` replaces G1's, delivering G1's
pending completion for slot 2 (a successful response) writes prices,
timestamps, `data_count` and `valid` into slot 2 of G2's collection,
changing it.  This theorem evaluates the handler at that failing input:
the current collection is mutated and slot 2 becomes valid. -/
theorem stale_completion_mutates_current_generation :
    deliverChartResponse (freshChartData ["AAA", "BBB", "CCC"]) 2 200 (some staleBody)
      ≠ freshChartData ["AAA", "BBB", "CCC"] ∧
    ((deliverChartResponse (freshChartData ["AAA", "BBB", "CCC"]) 2 200
        (some staleBody)).getD 2 (freshSlot "")).valid = true := by
  decide

/-- C2: for every extractor run on a well-formed response (one whose
`close` array, when present, is index-aligned with the `timestamp`
array), the resulting timestamps array length equals `data_count`;
the prices array is empty when no `close` array was present, and has
length exactly `data_count` when one was. -/
theorem extractor_length_contract (root : JValue) (s : String)
    (hwf : wellFormedB root = true) :
    (extractChart 200 (some root) s).timestamps.length
      = (extractChart 200 (some root) s).data_count ∧
    (closeArray root = none → (extractChart 200 (some root) s).prices = []) ∧
    (∀ cs, closeArray root = some cs →
      (extractChart 200 (some root) s).prices.length
        = (extractChart 200 (some root) s).data_count) := by
  have hts : ∀ cs, closeArray root = some cs → cs.length = tsCount root := by
    intro cs hcs
    unfold wellFormedB at hwf
    rw [hcs] at hwf
    simpa using hwf
  rcases ht : timestampArray root with _ | ts <;>
    rcases hc : closeArray root with _ | cs <;>
      simp [extractChart, applyChartResponse, freshSlot, ht, hc]
  · have h := hts cs hc
    unfold tsCount at h
    rw [ht] at h
    simp at h ⊢
    exact h
  · have h := hts cs hc
    unfold tsCount at h
    rw [ht] at h
    simp at h ⊢
    exact h

/-- Witness for C2 at the well-formed fixture
`timestamp = [1000, 1010, 1020]`, `close = [10.0, 11.0, 12.0]`. -/
theorem extractor_length_contract_witness :
    wellFormedB wfBody = true ∧
    (extractChart 200 (some wfBody) "IBM").timestamps.length
      = (extractChart 200 (some wfBody) "IBM").data_count ∧
    (extractChart 200 (some wfBody) "IBM").prices.length
      = (extractChart 200 (some wfBody) "IBM").data_count :=
  ⟨rfl, (extractor_length_contract wfBody "IBM" rfl).1,
    (extractor_length_contract wfBody "IBM" rfl).2.2
      [.jfloat 10, .jfloat 11, .jfloat 12] rfl⟩

/-- C3 counterexample: the claim says one configured symbol whose fetch
fails with status 500 makes the chart show "no chart data available"
after that completion.  Evaluating the code at that input: the slot
stays invalid, so `chart_draw_cb` takes the `!has_valid_data` branch and
draws the centered "Loading chart data..." message instead — the code
never distinguishes "before any generation completed" from "a completed
generation yielded zero valid series". -/
theorem failed_fetch_shows_loading_not_no_data :
    chartMessage (deliverChartResponse (freshChartData ["ACME"]) 0 500 none)
      = ChartMessage.loadingChartData ∧
    chartMessage (deliverChartResponse (freshChartData ["ACME"]) 0 500 none)
      ≠ ChartMessage.noChartDataAvailable := by
  decide

/-- C3 amended: when no series qualifies (`valid` with positive
`data_count`), the renderer always emits the centered "loading" message,
regardless of whether any fetch generation has completed — in particular
after a single symbol's fetch fails with status 500; the "no data"
message appears only when at least one series qualifies but none
contributes a strictly positive price or a plausible time range. -/
theorem chart_placeholder_messages (data : List StockChartData) :
    (data.any qualifies = false →
      chartMessage data = ChartMessage.loadingChartData) ∧
    (data.any qualifies = true →
      ((data.any fun d => qualifies d && contributesPrice d) = false ∨
       (data.any fun d => qualifies d && contributesTime d) = false) →
      chartMessage data = ChartMessage.noChartDataAvailable) := by
  constructor
  · intro h
    simp [chartMessage, h]
  · intro h hrange
    rcases hrange with h1 | h1 <;> simp [chartMessage, h, h1]

/-- Witness for C3 amended: the failed-fetch scenario shows the loading
message, and a qualifying series whose only price is 0 shows the
"no data" message. -/
theorem chart_placeholder_messages_witness :
    ((deliverChartResponse (freshChartData ["ACME"]) 0 500 none).any qualifies
        = false ∧
      chartMessage (deliverChartResponse (freshChartData ["ACME"]) 0 500 none)
        = ChartMessage.loadingChartData) ∧
    (zeroPriceSeries.any qualifies = true ∧
      chartMessage zeroPriceSeries = ChartMessage.noChartDataAvailable) :=
  ⟨⟨by decide, (chart_placeholder_messages _).1 (by decide)⟩,
   ⟨by decide,
    (chart_placeholder_messages zeroPriceSeries).2 (by decide) (Or.inl (by decide))⟩⟩

/-- C4: for every response containing a timestamp array at
`chart.result[0].timestamp`, the extractor sets `data_count` to the
input array's length and produces a timestamps output array of exactly
that length, copying each element whose runtime type is integer and
leaving a zero sentinel in every other slot. -/
theorem timestamp_extraction_aligned (root : JValue) (s : String)
    (ts : List JValue) (hts : timestampArray root = some ts) :
    (extractChart 200 (some root) s).data_count = ts.length ∧
    (extractChart 200 (some root) s).timestamps.length = ts.length ∧
    (∀ i n, ts.getD i .jnull = JValue.jint n →
      (extractChart 200 (some root) s).timestamps.getD i 0 = n) ∧
    (∀ i, i < ts.length → (∀ n, ts.getD i .jnull ≠ JValue.jint n) →
      (extractChart 200 (some root) s).timestamps.getD i 0 = 0) := by
  have hmain : (extractChart 200 (some root) s).timestamps = ts.map tsElem ∧
      (extractChart 200 (some root) s).data_count = ts.length := by
    rcases hc : closeArray root with _ | cs <;>
      simp [extractChart, applyChartResponse, hts, hc]
  obtain ⟨h1, h2⟩ := hmain
  refine ⟨h2, by rw [h1]; simp, ?_, ?_⟩
  · intro i n hin
    have hilt : i < ts.length := by
      by_contra hge
      rw [List.getD_eq_getElem?_getD, List.getElem?_eq_none (by omega)] at hin
      simp at hin
    rw [List.getD_eq_getElem?_getD, List.getElem?_eq_getElem hilt,
      Option.getD_some] at hin
    rw [h1, List.getD_eq_getElem?_getD, List.getElem?_map,
      List.getElem?_eq_getElem hilt, Option.map_some', Option.getD_some, hin]
    rfl
  · intro i hilt hnone
    rw [h1, List.getD_eq_getElem?_getD, List.getElem?_map,
      List.getElem?_eq_getElem hilt, Option.map_some', Option.getD_some]
    rcases hx : ts[i] with _ | b | n | q | str | es | ms
    · rfl
    · rfl
    · exact absurd (by rw [List.getD_eq_getElem?_getD,
        List.getElem?_eq_getElem hilt, Option.getD_some, hx]) (hnone n)
    · rfl
    · rfl
    · rfl
    · rfl

/-- Witness for C4 at the fixture
`timestamp = [1000, "x", 1020]`: `data_count = 3`, the int64 element at
index 0 is copied, the non-integer element at index 1 leaves the zero
sentinel. -/
theorem timestamp_extraction_aligned_witness :
    timestampArray mixedTsBody
      = some [.jint 1000, .jstring "x", .jint 1020] ∧
    (extractChart 200 (some mixedTsBody) "IBM").data_count = 3 ∧
    (extractChart 200 (some mixedTsBody) "IBM").timestamps.getD 0 0 = 1000 ∧
    (extractChart 200 (some mixedTsBody) "IBM").timestamps.getD 1 0 = 0 :=
  ⟨rfl, (timestamp_extraction_aligned mixedTsBody "IBM" _ rfl).1,
    (timestamp_extraction_aligned mixedTsBody "IBM" _ rfl).2.2.1 0 1000 rfl,
    (timestamp_extraction_aligned mixedTsBody "IBM" _ rfl).2.2.2 1 (by decide)
      (fun n hn => by simp at hn)⟩

/-- C5: for every successfully parsed response body, the extractor marks
the series `valid = true` iff the `close` array at
`chart.result[0].indicators.quote[0].close` is present and holds an
array (non-null); an empty but present `close` array still yields
`valid = true`, and absence of `indicators`, `quote` or `close` yields
`valid = false`. -/
theorem valid_iff_close_array_present :
    (∀ root s, ((extractChart 200 (some root) s).valid = true
      ↔ (closeArray root).isSome = true)) ∧
    (extractChart 200 (some emptyCloseBody) "IBM").valid = true := by
  constructor
  · intro root s
    rcases hc : closeArray root with _ | cs <;>
      rcases ht : timestampArray root with _ | ts <;>
        simp [extractChart, applyChartResponse, freshSlot, ht, hc]
  · decide

/-- C6: every completion whose HTTP status is not OK, or whose body
fails to parse as JSON, yields a series with `valid = false` and empty
prices/timestamps arrays; the handler is a total function, so no such
input raises or aborts — the failure degrades to an invalid series for
that symbol only. -/
theorem failed_fetch_yields_invalid_empty (status : Nat)
    (body : Option JValue) (s : String) (h : status ≠ 200 ∨ body = none) :
    extractChart status body s = freshSlot s ∧
    (extractChart status body s).valid = false ∧
    (extractChart status body s).prices = [] ∧
    (extractChart status body s).timestamps = [] := by
  have heq : extractChart status body s = freshSlot s := by
    rcases h with h | h
    · simp [extractChart, applyChartResponse, h]
    · subst h
      by_cases hs : status = 200 <;> simp [extractChart, applyChartResponse, hs]
  exact ⟨heq, by rw [heq]; rfl, by rw [heq]; rfl, by rw [heq]; rfl⟩

/-- Witness for C6 at a status-500 completion. -/
theorem failed_fetch_yields_invalid_empty_witness :
    ((500 : Nat) ≠ 200 ∨ (none : Option JValue) = none) ∧
    extractChart 500 none "IBM" = freshSlot "IBM" :=
  ⟨Or.inl (by decide),
    (failed_fetch_yields_invalid_empty 500 none "IBM" (Or.inl (by decide))).1⟩

/-- C7: the renderer's nested loops sort the qualifying series
descending by last price (`prices[data_count - 1]`, the key collected
into `StockSortInfo`); for three qualifying series with last prices
50, 200, 10 the resulting order is 200, 50, 10, the first (highest)
entry receives palette color 0, and colors cycle by sorted index modulo
the palette size 8. -/
theorem renderer_sort_descending_and_palette :
    (∀ l p q, p < q → q < (sortStocks l).length →
      pval (sortStocks l) q ≤ pval (sortStocks l) p) ∧
    collectSortInfo threeSeries = [⟨0, 50⟩, ⟨1, 200⟩, ⟨2, 10⟩] ∧
    sortStocks [⟨0, 50⟩, ⟨1, 200⟩, ⟨2, 10⟩]
      = [⟨1, 200⟩, ⟨0, 50⟩, ⟨2, 10⟩] ∧
    colorIdx 0 = 0 ∧ (∀ i, colorIdx i = i % 8) :=
  ⟨sortStocks_sorted, by decide, by decide, rfl, fun i => rfl⟩

/-- Witness for C7: at the concrete three-series input, the sorted entry
at position 1 does not exceed the one at position 0. -/
theorem renderer_sort_descending_and_palette_witness :
    pval (sortStocks [⟨0, 50⟩, ⟨1, 200⟩, ⟨2, 10⟩]) 1
      ≤ pval (sortStocks [⟨0, 50⟩, ⟨1, 200⟩, ⟨2, 10⟩]) 0 :=
  renderer_sort_descending_and_palette.1 _ 0 1 (by decide) (by decide)

/-- C8: for a summary completion whose `meta` object is reachable, the
handler stores the percent change
`(current - previousClose) / previousClose * 100` and marks the slot
valid exactly when both `regularMarketPrice` and `previousClose` are
strictly positive; otherwise the slot stays as allocated — marked
invalid, with no partial or estimated change stored. -/
theorem percent_change_guard (root : JValue) (meta : List (String × JValue))
    (hm : metaObject root = some meta) :
    (getDoubleMember meta "regularMarketPrice" > 0 →
     getDoubleMember meta "previousClose" > 0 →
      applyStockResponse freshStockSlot 200 (some root)
        = { price := getDoubleMember meta "regularMarketPrice",
            change := (getDoubleMember meta "regularMarketPrice"
                - getDoubleMember meta "previousClose")
              / getDoubleMember meta "previousClose" * 100,
            valid := true }) ∧
    (¬(getDoubleMember meta "regularMarketPrice" > 0
        ∧ getDoubleMember meta "previousClose" > 0) →
      applyStockResponse freshStockSlot 200 (some root) = freshStockSlot) := by
  constructor
  · intro h1 h2
    simp [applyStockResponse, hm, h1, h2]
  · intro h
    simp [applyStockResponse, hm, h]

/-- Witness for C8 at `regularMarketPrice = 110`, `previousClose = 100`:
the stored change is `(110 - 100) / 100 * 100 = 10` and the slot is
valid. -/
theorem percent_change_guard_witness :
    applyStockResponse freshStockSlot 200 (some summaryBody)
      = { price := 110, change := 10, valid := true } := by
  have e1 : getDoubleMember
      [("regularMarketPrice", JValue.jfloat 110),
       ("previousClose", JValue.jfloat 100)] "regularMarketPrice" = 110 := rfl
  have e2 : getDoubleMember
      [("regularMarketPrice", JValue.jfloat 110),
       ("previousClose", JValue.jfloat 100)] "previousClose" = 100 := rfl
  have h := (percent_change_guard summaryBody
    [("regularMarketPrice", JValue.jfloat 110),
     ("previousClose", JValue.jfloat 100)] rfl).1
    (by rw [e1]; norm_num) (by rw [e2]; norm_num)
  rw [h, e1, e2]
  norm_num [StockSlot.mk.injEq]

/-- C9 counterexample: the claim says the renderer draws exactly 10
horizontal and 10 vertical gridlines; the loops run `i = 0 .. 10`
inclusive, so at the concrete geometry 800×500 each direction has 11
gridlines, not 10. -/
theorem gridline_count_is_eleven :
    (hGridYs 500).length = 11 ∧ (vGridXs 800).length = 11 ∧
    (hGridYs 500).length ≠ 10 ∧ (vGridXs 800).length ≠ 10 := by
  refine ⟨?_, ?_, ?_, ?_⟩ <;> simp [hGridYs, vGridXs]

/-- C9 amended: every draw pass that reaches the geometry step draws
exactly 11 horizontal and 11 vertical gridlines (`i = 0` through `10`),
evenly spaced across the interior rectangle inside the fixed 50-unit
margins: consecutive lines are always `(extent - 100) / 10` apart, so
the lines bound 10 equal cells. -/
theorem gridlines_eleven_evenly_spaced (width height : ℚ) :
    (hGridYs height).length = 11 ∧ (vGridXs width).length = 11 ∧
    (∀ i, i < 10 →
      (hGridYs height).getD (i + 1) 0 - (hGridYs height).getD i 0
        = (height - 100) / 10) ∧
    (∀ i, i < 10 →
      (vGridXs width).getD (i + 1) 0 - (vGridXs width).getD i 0
        = (width - 100) / 10) := by
  refine ⟨by simp [hGridYs], by simp [vGridXs], ?_, ?_⟩ <;> intro i hi
  · rw [hGridYs_getD height (i + 1) (by omega), hGridYs_getD height i (by omega)]
    push_cast
    ring
  · rw [vGridXs_getD width (i + 1) (by omega), vGridXs_getD width i (by omega)]
    push_cast
    ring

/-- Witness for C9 amended at the concrete geometry 800×500, adjacent
gridlines 0 and 1. -/
theorem gridlines_eleven_evenly_spaced_witness :
    (hGridYs 500).getD 1 0 - (hGridYs 500).getD 0 0 = (500 - 100) / 10 :=
  (gridlines_eleven_evenly_spaced 800 500).2.2.1 0 (by decide)

/-- C10: the claim says every series the extractor marks valid with
`data_count > 0` has a prices array of length at least `data_count`,
keeping all of `chart_draw_cb`'s `prices[j]` (`j < data_count`) and
`prices[data_count - 1]` reads in bounds.  Evaluating the extractor at
the failing input — a parseable body with `timestamp = [1000]` and a
present but empty `close` array — yields `valid = true`,
`data_count = 1` and an empty prices array, violating the bound. -/
theorem valid_series_prices_shorter_than_data_count :
    (extractChart 200 (some emptyCloseBody) "AAA").valid = true ∧
    (extractChart 200 (some emptyCloseBody) "AAA").data_count = 1 ∧
    (extractChart 200 (some emptyCloseBody) "AAA").prices.length = 0 ∧
    ¬((extractChart 200 (some emptyCloseBody) "AAA").prices.length
        ≥ (extractChart 200 (some emptyCloseBody) "AAA").data_count) := by
  decide

end MateInvest
